import Mathlib

/-!
Verification of the G4sim web dashboard core: the mesh primitive library,
placement transform and geometry scene builder (webapp/services/geometry.py),
and the run supervisor (webapp/services/simulation.py, webapp/routers/run_api.py).

Numeric values are modelled over `ℚ`.  The library trigonometric routines
(`np.cos`, `np.sin`, `np.radians`) are external collaborators; they are
abstracted as an oracle `Trig` whose fields stand for the exact
compositions the source evaluates:
  * `cosd d` / `sind d`   — `np.cos(np.radians(d))`, `np.sin(np.radians(d))`
    for an angle `d` in degrees (used by `rotation_matrix`);
  * `cosSeg k n` / `sinSeg k n` — `np.cos(2*pi*k/n)`, `np.sin(2*pi*k/n)`
    (the `linspace(0, 2*pi, n, endpoint=False)` samples of `cylinder_mesh`
    and the longitude samples of `sphere_mesh`);
  * `cosLat l n` / `sinLat l n` — `np.cos(pi*l/n)`, `np.sin(pi*l/n)`
    (the latitude samples of `sphere_mesh`).
Theorems that need concrete trigonometric values take them as hypotheses
(e.g. `cosd 90 = 0`), which the true functions satisfy.
-/

namespace G4Web

/-- A 3-vector, as one row of the numpy vertex arrays. -/
structure V3 where
  x : ℚ
  y : ℚ
  z : ℚ
deriving DecidableEq, Repr

/-- Oracle for the external trigonometric routines (see module docstring). -/
structure Trig where
  cosd : ℚ → ℚ
  sind : ℚ → ℚ
  cosSeg : ℕ → ℕ → ℚ
  sinSeg : ℕ → ℕ → ℚ
  cosLat : ℕ → ℕ → ℚ
  sinLat : ℕ → ℕ → ℚ

/-- A trivial trig oracle, used to instantiate examples whose truth does not
depend on the trigonometric values. -/
def trig0 : Trig := ⟨fun _ => 0, fun _ => 0, fun _ _ => 0, fun _ _ => 0,
  fun _ _ => 0, fun _ _ => 0⟩

/-- The `(vertices, i, j, k)` quadruple returned by the mesh generators. -/
structure Mesh where
  verts : List V3
  ti : List ℕ
  tj : List ℕ
  tk : List ℕ
deriving DecidableEq, Repr

/-- `box_mesh(dx, dy, dz)` — vertices and triangle table for a box with
half-sizes `dx`, `dy`, `dz` (geometry.py lines 45–54). -/
def box_mesh (dx dy dz : ℚ) : Mesh :=
  { verts := [⟨-dx, -dy, -dz⟩, ⟨dx, -dy, -dz⟩, ⟨dx, dy, -dz⟩, ⟨-dx, dy, -dz⟩,
              ⟨-dx, -dy, dz⟩, ⟨dx, -dy, dz⟩, ⟨dx, dy, dz⟩, ⟨-dx, dy, dz⟩]
    ti := [0, 0, 4, 4, 0, 0, 2, 2, 0, 0, 1, 1]
    tj := [1, 2, 5, 6, 1, 4, 3, 7, 3, 4, 2, 5]
    tk := [2, 3, 6, 7, 5, 7, 7, 6, 4, 3, 6, 6] }

/-- `cylinder_mesh(radius, half_h, n_seg)` — a cylinder along the Z axis
(geometry.py lines 57–85).  Vertices: bottom ring, then top ring, then the
bottom-centre and top-centre vertices (indices `2*n_seg` and `2*n_seg+1`).
Per segment the loop pushes two side triangles, one bottom-cap triangle and
one top-cap triangle, the ring wrapping modulo `n_seg`. -/
def cylinder_mesh (trig : Trig) (radius half_h : ℚ) (n_seg : ℕ) : Mesh :=
  let ring : ℚ → List V3 := fun zsign =>
    (List.range n_seg).map fun k =>
      ⟨radius * trig.cosSeg k n_seg, radius * trig.sinSeg k n_seg, zsign * half_h⟩
  { verts := ring (-1) ++ ring 1 ++ [⟨0, 0, -half_h⟩, ⟨0, 0, half_h⟩]
    ti := (List.range n_seg).flatMap fun seg =>
      [seg, (seg + 1) % n_seg, 2 * n_seg, 2 * n_seg + 1]
    tj := (List.range n_seg).flatMap fun seg =>
      [(seg + 1) % n_seg, (seg + 1) % n_seg + n_seg, (seg + 1) % n_seg, seg + n_seg]
    tk := (List.range n_seg).flatMap fun seg =>
      [seg + n_seg, seg + n_seg, seg, (seg + 1) % n_seg + n_seg] }

/-- `sphere_mesh(radius, n_lat, n_lon)` — a UV sphere (geometry.py lines
88–109): `(n_lat+1)*n_lon` vertices in latitude-major order; per lat/lon
quad two triangles, longitude wrapping modulo `n_lon`. -/
def sphere_mesh (trig : Trig) (radius : ℚ) (n_lat n_lon : ℕ) : Mesh :=
  { verts := (List.range (n_lat + 1)).flatMap fun lat =>
      (List.range n_lon).map fun lon =>
        ⟨radius * trig.sinLat lat n_lat * trig.cosSeg lon n_lon,
         radius * trig.sinLat lat n_lat * trig.sinSeg lon n_lon,
         radius * trig.cosLat lat n_lat⟩
    ti := (List.range n_lat).flatMap fun lat =>
      (List.range n_lon).flatMap fun lon =>
        [lat * n_lon + lon, lat * n_lon + (lon + 1) % n_lon]
    tj := (List.range n_lat).flatMap fun lat =>
      (List.range n_lon).flatMap fun lon =>
        [lat * n_lon + (lon + 1) % n_lon, (lat + 1) * n_lon + (lon + 1) % n_lon]
    tk := (List.range n_lat).flatMap fun lat =>
      (List.range n_lon).flatMap fun lon =>
        [(lat + 1) * n_lon + lon, (lat + 1) * n_lon + lon] }

/-- A 3×3 matrix, row-major. -/
structure Mat3 where
  m00 : ℚ
  m01 : ℚ
  m02 : ℚ
  m10 : ℚ
  m11 : ℚ
  m12 : ℚ
  m20 : ℚ
  m21 : ℚ
  m22 : ℚ
deriving DecidableEq, Repr

/-- Matrix product (numpy `@`). -/
def mat3Mul (a b : Mat3) : Mat3 :=
  { m00 := a.m00 * b.m00 + a.m01 * b.m10 + a.m02 * b.m20
    m01 := a.m00 * b.m01 + a.m01 * b.m11 + a.m02 * b.m21
    m02 := a.m00 * b.m02 + a.m01 * b.m12 + a.m02 * b.m22
    m10 := a.m10 * b.m00 + a.m11 * b.m10 + a.m12 * b.m20
    m11 := a.m10 * b.m01 + a.m11 * b.m11 + a.m12 * b.m21
    m12 := a.m10 * b.m02 + a.m11 * b.m12 + a.m12 * b.m22
    m20 := a.m20 * b.m00 + a.m21 * b.m10 + a.m22 * b.m20
    m21 := a.m20 * b.m01 + a.m21 * b.m11 + a.m22 * b.m21
    m22 := a.m20 * b.m02 + a.m21 * b.m12 + a.m22 * b.m22 }

/-- Matrix-vector product, as `(R @ placed.T).T` acts on one vertex row. -/
def mat3Apply (a : Mat3) (v : V3) : V3 :=
  ⟨a.m00 * v.x + a.m01 * v.y + a.m02 * v.z,
   a.m10 * v.x + a.m11 * v.y + a.m12 * v.z,
   a.m20 * v.x + a.m21 * v.y + a.m22 * v.z⟩

/-- `rotation_matrix(rx, ry, rz)` — geometry.py lines 29–38: a 3×3 rotation
matrix from Euler angles in degrees, combined as `Rz @ Ry @ Rx`. -/
def rotation_matrix (trig : Trig) (rx ry rz : ℚ) : Mat3 :=
  let cx := trig.cosd rx
  let sx := trig.sind rx
  let cy := trig.cosd ry
  let sy := trig.sind ry
  let cz := trig.cosd rz
  let sz := trig.sind rz
  let Rx : Mat3 := ⟨1, 0, 0, 0, cx, -sx, 0, sx, cx⟩
  let Ry : Mat3 := ⟨cy, 0, sy, 0, 1, 0, -sy, 0, cy⟩
  let Rz : Mat3 := ⟨cz, -sz, 0, sz, cz, 0, 0, 0, 1⟩
  mat3Mul (mat3Mul Rz Ry) Rx

/-- The per-placement vertex transform of `add_geometry_traces`
(geometry.py lines 158–164): rotate every vertex unless all three Euler
angles are zero, then add the translation componentwise. -/
def place_vertices (trig : Trig) (verts : List V3) (px py pz rx ry rz : ℚ) :
    List V3 :=
  let placed :=
    if rx ≠ 0 ∨ ry ≠ 0 ∨ rz ≠ 0 then
      verts.map (mat3Apply (rotation_matrix trig rx ry rz))
    else verts
  placed.map fun v => ⟨v.x + px, v.y + py, v.z + pz⟩

/-!  Colour helpers and the scene builder. -/

/-- The components of an `rgba(r,g,b,a)` display string. -/
structure Rgba where
  r : ℤ
  g : ℤ
  b : ℤ
  a : ℚ
deriving DecidableEq, Repr

/-- Python `int()` applied to a numeric value: truncation toward zero. -/
def pyInt (q : ℚ) : ℤ :=
  if q < 0 then -⌊-q⌋ else ⌊q⌋

/-- One colour channel of `rgba_str`: `int(c * 255) if c <= 1 else int(c)`. -/
def channel255 (c : ℚ) : ℤ :=
  if c ≤ 1 then pyInt (c * 255) else pyInt c

/-- `rgba_str(color, alpha_override)` — geometry.py lines 16–22, with the
produced string abstracted to its components: falsy or shorter-than-3
colour lists give the fixed gray `rgba(150,150,150,0.25)`; otherwise the
first three channels are scaled (values ≤ 1 treated as normalised) and the
alpha is the override if given, else the 4th channel if present, else 0.3. -/
def rgba_str (color : List ℚ) (alpha_override : Option ℚ) : Rgba :=
  match color with
  | c0 :: c1 :: c2 :: rest =>
      { r := channel255 c0, g := channel255 c1, b := channel255 c2
        a := alpha_override.getD (rest.headD (3 / 10)) }
  | _ => ⟨150, 150, 150, 1 / 4⟩

/-- A material entry of the materials mapping: `{color: [r,g,b,a?]}`.
`color := none` models an entry without a `"color"` key. -/
structure Material where
  color : Option (List ℚ)
deriving DecidableEq, Repr

/-- A placement dictionary: `{x,y,z, rotation:{x,y,z}}`, every key
optional (the source reads each with `.get(key, 0)`). -/
structure Placement where
  x : Option ℚ := none
  y : Option ℚ := none
  z : Option ℚ := none
  rotX : Option ℚ := none
  rotY : Option ℚ := none
  rotZ : Option ℚ := none
deriving DecidableEq, Repr

/-- A volume's `dimensions` dictionary, every key optional. -/
structure Dims where
  x : Option ℚ := none
  y : Option ℚ := none
  z : Option ℚ := none
  radius : Option ℚ := none
  height : Option ℚ := none
deriving DecidableEq, Repr

/-- A volume dictionary of the geometry description. -/
structure Volume where
  name : Option String := none
  g4name : Option String := none
  vtype : Option String := none
  dimensions : Dims := {}
  material : Option String := none
  visible : Option Bool := none
  placements : Option (List Placement) := none
deriving DecidableEq, Repr

/-- A geometry description: `{volumes: [...]}`. -/
structure Geom where
  volumes : Option (List Volume) := none
deriving DecidableEq, Repr

/-- One `Mesh3d` trace added to the figure: placed vertices, the triangle
table, the resolved colour and the display name. -/
structure Surface where
  verts : List V3
  ti : List ℕ
  tj : List ℕ
  tk : List ℕ
  color : Rgba
  name : String
deriving DecidableEq, Repr

/-- The mesh-generator dispatch of `add_geometry_traces` (geometry.py lines
131–146): `box`, `cylinder` and `sphere` select a generator (halving the
box sides and the cylinder height, defaulting absent dimensions to 0 with
the source's default tessellation parameters); any other type yields
`none` (the `continue` arm for unsupported types). -/
def meshFor (trig : Trig) (vtype : String) (dims : Dims) : Option Mesh :=
  if vtype = "box" then
    some (box_mesh (dims.x.getD 0 / 2) (dims.y.getD 0 / 2) (dims.z.getD 0 / 2))
  else if vtype = "cylinder" then
    some (cylinder_mesh trig (dims.radius.getD 0) (dims.height.getD 0 / 2) 24)
  else if vtype = "sphere" then
    some (sphere_mesh trig (dims.radius.getD 0) 12 24)
  else none

/-- `vol.get("g4name") or vol.get("name", vtype)` — Python `or` falls
through when `g4name` is absent or the empty string. -/
def volumeDisplayName (vol : Volume) (vtype : String) : String :=
  match vol.g4name with
  | some g => if g = "" then (vol.name.getD vtype) else g
  | none => vol.name.getD vtype

/-- The per-volume body of `add_geometry_traces` (geometry.py lines
120–178): skip invisible volumes, resolve the material colour (absent
material or absent colour key default to `[0.6,0.6,0.6,0.3]`), dispatch on
the shape type (unsupported types yield nothing), and emit one surface per
placement, rotated and translated, coloured with alpha override 0.15. -/
def surfacesForVolume (trig : Trig) (materials : List (String × Material))
    (vol : Volume) : List Surface :=
  if vol.visible.getD true = false then []
  else
    let vtype := vol.vtype.getD ""
    let matName := vol.material.getD ""
    let mat := (materials.lookup matName).getD ⟨none⟩
    let color := mat.color.getD [6 / 10, 6 / 10, 6 / 10, 3 / 10]
    match meshFor trig vtype vol.dimensions with
    | none => []
    | some mesh =>
        (vol.placements.getD []).map fun pl =>
          { verts := place_vertices trig mesh.verts (pl.x.getD 0) (pl.y.getD 0)
              (pl.z.getD 0) (pl.rotX.getD 0) (pl.rotY.getD 0) (pl.rotZ.getD 0)
            ti := mesh.ti, tj := mesh.tj, tk := mesh.tk
            color := rgba_str color (some (3 / 20))
            name := "geom: " ++ volumeDisplayName vol vtype }

/-- `add_geometry_traces(fig, geom, materials)` — the traces appended to
the figure, in volume order then placement order. -/
def add_geometry_traces (trig : Trig) (geom : Geom)
    (materials : List (String × Material)) : List Surface :=
  (geom.volumes.getD []).flatMap (surfacesForVolume trig materials)

/-!  Run supervisor (webapp/services/simulation.py, webapp/routers/run_api.py). -/

/-- A handle to the external simulation process.  `exited` records whether
the OS process has already gone away (in which case `kill()` raises
`ProcessLookupError`, which `stop_simulation` swallows). -/
structure Proc where
  pid : ℕ
  exited : Bool
deriving DecidableEq, Repr

/-- The run metadata dictionary built by `start_run` (run_api.py lines
64–74) and finalised by `_monitor_process`.  `nEvents` is `none` when
Python's `int()` would reject the request value; `finished` is absent
until finalisation. -/
structure RunMeta where
  started : String
  geometry : String
  particle : String
  energy : String
  position : String
  direction : String
  nEvents : Option ℤ
  outputFile : String
  status : String
  finished : Option String := none
deriving DecidableEq, Repr

/-- `current_process["info"]` — the in-memory session record. -/
structure RunInfo where
  run_dir : String
  meta : RunMeta
  log_lines : List String
deriving DecidableEq, Repr

/-- The module-level `current_process` dict: the single `RunSession` slot. -/
structure SimState where
  proc : Option Proc
  info : Option RunInfo
deriving DecidableEq, Repr

/-- A write to persistent per-run storage. -/
inductive Persist where
  | macroFile (path content : String)
  | metaFile (path : String) (m : RunMeta)
  | logFile (path content : String)
deriving DecidableEq, Repr

/-- The JSON body of `POST /api/run`; every key optional (read with
`body.get(key, default)`).  `nEvents` is kept as the raw string. -/
structure RunParams where
  geometry : Option String := none
  particle : Option String := none
  energy : Option String := none
  energyUnit : Option String := none
  posX : Option String := none
  posY : Option String := none
  posZ : Option String := none
  posUnit : Option String := none
  dirX : Option String := none
  dirY : Option String := none
  dirZ : Option String := none
  nEvents : Option String := none
  outputFile : Option String := none
  verboseHits : Option String := none
deriving DecidableEq, Repr

/-- The response of `POST /api/run`: either the 409 conflict JSON
(`{"error": "A simulation is already running"}`) or
`{"status": "started", "runId": stamp}`. -/
inductive StartResponse where
  | conflict
  | started (runId : String)
deriving DecidableEq, Repr

/-- `start_run(request)` — run_api.py lines 18–80 together with
`start_simulation` (simulation.py lines 17–31).  `stamp` is the
wall-clock timestamp string and `newPid` the pid of the spawned process;
returns the HTTP response, the new `current_process` state and the files
written.  A non-`None` process handle is rejected up front with 409 and
nothing else happens. -/
def start_run (s : SimState) (body : RunParams) (stamp : String) (newPid : ℕ) :
    StartResponse × SimState × List Persist :=
  if s.proc.isSome then (.conflict, s, [])
  else
    let geometry := body.geometry.getD "geometry.json"
    let particle := body.particle.getD "gamma"
    let energy := body.energy.getD "1"
    let energy_unit := body.energyUnit.getD "MeV"
    let pos_x := body.posX.getD "-10"
    let pos_y := body.posY.getD "0"
    let pos_z := body.posZ.getD "0"
    let pos_unit := body.posUnit.getD "cm"
    let dir_x := body.dirX.getD "1"
    let dir_y := body.dirY.getD "0"
    let dir_z := body.dirZ.getD "0"
    let n_events := body.nEvents.getD "10000"
    let output := body.outputFile.getD "G4sim.root"
    let verbose := body.verboseHits.getD "0"
    let run_dir := "runs/" ++ stamp
    let macro_path := run_dir ++ "/run.mac"
    let macro_content :=
      "/detector/setGeometryFile config/" ++ geometry ++ "\n" ++
      "/output/setFileName " ++ run_dir ++ "/" ++ output ++ "\n" ++
      "/run/initialize\n" ++
      "/vis/disable\n" ++
      "/hits/setVerbose " ++ verbose ++ "\n" ++
      "\n" ++
      "/gun/particle " ++ particle ++ "\n" ++
      "/gun/energy " ++ energy ++ " " ++ energy_unit ++ "\n" ++
      "/gun/position " ++ pos_x ++ " " ++ pos_y ++ " " ++ pos_z ++ " " ++ pos_unit ++ "\n" ++
      "/gun/direction " ++ dir_x ++ " " ++ dir_y ++ " " ++ dir_z ++ "\n" ++
      "\n" ++
      "/run/beamOn " ++ n_events ++ "\n"
    let meta : RunMeta :=
      { started := stamp, geometry := geometry, particle := particle
        energy := energy ++ " " ++ energy_unit
        position := pos_x ++ " " ++ pos_y ++ " " ++ pos_z ++ " " ++ pos_unit
        direction := dir_x ++ " " ++ dir_y ++ " " ++ dir_z
        nEvents := n_events.toInt?, outputFile := output, status := "running" }
    let s' : SimState :=
      { proc := some ⟨newPid, false⟩
        info := some { run_dir := run_dir, meta := meta, log_lines := [] } }
    (.started stamp, s',
     [.macroFile macro_path macro_content, .metaFile (run_dir ++ "/meta.json") meta])

/-- `_monitor_process(proc, run_dir, meta)` — simulation.py lines 34–60:
append each stdout line to the session's log sequence (when the session
still exists), then after process exit with code `rc` stamp the finish
time `now`, classify the outcome, rewrite `meta.json`, write the full log,
and clear the in-memory session. -/
def monitor_process (s : SimState) (lines : List String) (rc : ℤ)
    (now run_dir : String) (meta : RunMeta) : SimState × List Persist :=
  let s1 := lines.foldl (fun st line =>
    match st.info with
    | some i => { st with info := some { i with log_lines := i.log_lines ++ [line] } }
    | none => st) s
  let meta' := { meta with
    status := if rc = 0 then "completed" else "error (code " ++ toString rc ++ ")"
    finished := some now }
  let writes := [Persist.metaFile (run_dir ++ "/meta.json") meta'] ++
    (match s1.info with
     | some i => [Persist.logFile (run_dir ++ "/log.txt")
         (String.intercalate "\n" i.log_lines)]
     | none => [])
  (⟨none, none⟩, writes)

/-- `stop_simulation()` — simulation.py lines 63–72.  The returned triple
is the status string, the (unchanged) `current_process` state, and the pid
a kill signal was delivered to (`none` when there was no process or the
kill raised `ProcessLookupError` because the process had already exited,
which is swallowed). -/
def stop_simulation (s : SimState) : String × SimState × Option ℕ :=
  match s.proc with
  | none => ("no simulation running", s, none)
  | some p => ("killed", s, if p.exited then none else some p.pid)

/-- The value returned by `get_status()`. -/
inductive Status where
  | idle
  | running (runDir : String) (meta : RunMeta) (logTail : List String)
      (logLength : ℕ)
deriving DecidableEq, Repr

/-- `get_status()` — simulation.py lines 75–86: `{"running": False}` when
no process handle is held, else the run directory, metadata, last 100 log
lines and total log length.  `none` models the `TypeError` the source
would raise if the handle were set while `info` is absent. -/
def get_status (s : SimState) : Option Status :=
  match s.proc with
  | none => some .idle
  | some _ =>
      s.info.map fun info =>
        .running info.run_dir info.meta
          (info.log_lines.drop (info.log_lines.length - 100))
          info.log_lines.length

/-!  The `/ws/log` streaming subscriber (run_api.py lines 99–118).
A subscriber is modelled by its cursor `sent`; each poll observes a
snapshot of `current_process["info"]`'s log lines (`none` when the session
is absent) and `wsStep` gives the lines sent on that poll, the new cursor,
and whether the loop broke. -/

/-- One iteration of the `/ws/log` polling loop. -/
def wsStep (snapshot : Option (List String)) (sent : ℕ) :
    List String × ℕ × Bool :=
  match snapshot with
  | some lines =>
      if lines.length > sent then (lines.drop sent, lines.length, false)
      else ([], sent, false)
  | none => if sent > 0 then (["__DONE__"], sent, true) else ([], sent, false)

/-- Run the `/ws/log` loop over a finite schedule of observed snapshots:
the concatenation of everything sent, the final cursor, and whether the
loop ended (broke) within the schedule. -/
def wsRun : List (Option (List String)) → ℕ → List String × ℕ × Bool
  | [], sent => ([], sent, false)
  | snap :: rest, sent =>
      let step := wsStep snap sent
      if step.2.2 then (step.1, step.2.1, true)
      else
        let r := wsRun rest step.2.1
        (step.1 ++ r.1, r.2.1, r.2.2)

/-!  Theorems. -/

/-- The error status string can never equal `"completed"`. -/
lemma error_status_ne_completed (rc : ℤ) :
    "error (code " ++ toString rc ++ ")" ≠ "completed" := by
  intro h
  have hlen := congrArg String.length h
  have h1 : ("error (code " : String).length = 12 := rfl
  have h2 : (")" : String).length = 1 := rfl
  have h3 : ("completed" : String).length = 9 := rfl
  rw [String.length_append, String.length_append, h1, h2, h3] at hlen
  omega

/-- A sample in-memory session, used to instantiate the supervisor
theorems on concrete inputs. -/
def sampleMeta : RunMeta :=
  { started := "20250101_120000", geometry := "geometry.json"
    particle := "gamma", energy := "1 MeV", position := "-10 0 0 cm"
    direction := "1 0 0", nEvents := some 10000, outputFile := "G4sim.root"
    status := "running" }

/-- A sample `current_process` with a live run. -/
def sampleState : SimState :=
  { proc := some ⟨4242, false⟩
    info := some { run_dir := "runs/20250101_120000", meta := sampleMeta
                   log_lines := ["line one"] } }

/-- C1: while a run session exists (the process handle is non-`None`),
`start_run` answers with the 409 conflict response and returns with the
`current_process` slot — process handle, `RunRecord` and log sequence —
exactly as it was, writing no files. -/
theorem start_run_conflict_leaves_session (s : SimState) (p : Proc)
    (body : RunParams) (stamp : String) (newPid : ℕ) (h : s.proc = some p) :
    start_run s body stamp newPid = (.conflict, s, []) ∧
    (start_run s body stamp newPid).2.1.proc = s.proc ∧
    (start_run s body stamp newPid).2.1.info = s.info := by
  have hs : s.proc.isSome = true := by rw [h]; rfl
  simp [start_run, hs]

/-- Witness for C1 at a concrete live session. -/
theorem start_run_conflict_witness :
    start_run sampleState {} "20250101_120100" 5555 = (.conflict, sampleState, []) :=
  (start_run_conflict_leaves_session sampleState ⟨4242, false⟩ {}
    "20250101_120100" 5555 rfl).1

/-- C2: once the monitored process exits, `_monitor_process` clears the
in-memory session (so `get_status` reports not-running), and the first
persisted write rewrites `meta.json` with the finish time stamped and the
outcome classified: status `"completed"` exactly when the exit code is 0,
and otherwise `"error (code <rc>)"` with the exit code preserved. -/
theorem monitor_finalizes_and_clears (s : SimState) (lines : List String)
    (rc : ℤ) (now run_dir : String) (meta : RunMeta) :
    (monitor_process s lines rc now run_dir meta).1 = ⟨none, none⟩ ∧
    get_status (monitor_process s lines rc now run_dir meta).1 = some .idle ∧
    ∃ m', (monitor_process s lines rc now run_dir meta).2.head? =
        some (.metaFile (run_dir ++ "/meta.json") m') ∧
      (m'.status = "completed" ↔ rc = 0) ∧
      (rc ≠ 0 → m'.status = "error (code " ++ toString rc ++ ")") ∧
      m'.finished = some now ∧
      m'.started = meta.started ∧ m'.nEvents = meta.nEvents ∧
      m'.geometry = meta.geometry ∧ m'.outputFile = meta.outputFile := by
  refine ⟨rfl, rfl, ?_⟩
  refine ⟨{ meta with
    status := if rc = 0 then "completed" else "error (code " ++ toString rc ++ ")"
    finished := some now }, ?_, ?_, ?_, rfl, rfl, rfl, rfl, rfl⟩
  · simp [monitor_process]
  · by_cases h : rc = 0 <;> simp [h, error_status_ne_completed rc]
  · intro h; simp [h]

/-- Witness for C2: a run that exits with code 0 on a concrete session. -/
theorem monitor_finalizes_witness :
    (monitor_process sampleState ["done"] 0 "20250101_120500"
        "runs/20250101_120000" sampleMeta).1 = ⟨none, none⟩ ∧
    get_status (monitor_process sampleState ["done"] 0 "20250101_120500"
        "runs/20250101_120000" sampleMeta).1 = some .idle := by
  have h := monitor_finalizes_and_clears sampleState ["done"] 0
    "20250101_120500" "runs/20250101_120000" sampleMeta
  exact ⟨h.1, h.2.1⟩

/-- C9: `stop_simulation` never mutates the `current_process` slot: with no
session it returns the no-op status string, and with a live session it
returns `"killed"`, leaving process handle, record and log sequence
untouched; the kill signal is delivered only when the process still
exists, and an already-exited process is tolerated (no signal, no error). -/
theorem stop_simulation_frame (s : SimState) :
    (stop_simulation s).2.1 = s ∧
    (s.proc = none → stop_simulation s = ("no simulation running", s, none)) ∧
    (∀ p, s.proc = some p →
      (stop_simulation s).1 = "killed" ∧
      (stop_simulation s).2.1.proc = s.proc ∧
      (stop_simulation s).2.1.info = s.info ∧
      (p.exited = true → (stop_simulation s).2.2 = none) ∧
      (p.exited = false → (stop_simulation s).2.2 = some p.pid)) := by
  obtain ⟨proc, info⟩ := s
  refine ⟨?_, ?_, ?_⟩
  · cases proc <;> simp [stop_simulation]
  · intro h
    simp only at h
    subst h
    rfl
  · intro p hp
    simp only at hp
    subst hp
    refine ⟨rfl, rfl, rfl, ?_, ?_⟩ <;> intro hx <;> simp [stop_simulation, hx]

/-- Witness for C9 on a live session whose process has already exited. -/
theorem stop_simulation_frame_witness :
    (stop_simulation ⟨some ⟨4242, true⟩, sampleState.info⟩).1 = "killed" ∧
    (stop_simulation ⟨some ⟨4242, true⟩, sampleState.info⟩).2.1 =
      ⟨some ⟨4242, true⟩, sampleState.info⟩ ∧
    (stop_simulation ⟨some ⟨4242, true⟩, sampleState.info⟩).2.2 = none := by
  have h := stop_simulation_frame ⟨some ⟨4242, true⟩, sampleState.info⟩
  exact ⟨(h.2.2 ⟨4242, true⟩ rfl).1, h.1, (h.2.2 ⟨4242, true⟩ rfl).2.2.2.1 rfl⟩

/-- Bound for UV-sphere grid indices: `a * M + b < (L + 1) * M` whenever
`a ≤ L` and `b < M`. -/
lemma grid_index_lt (L M a b : ℕ) (ha : a ≤ L) (hb : b < M) :
    a * M + b < (L + 1) * M := by
  calc a * M + b < a * M + M := by omega
    _ = (a + 1) * M := by ring
    _ ≤ (L + 1) * M := Nat.mul_le_mul_right M (by omega)

/-- C3: every triangle index produced by the three mesh generators is
strictly below the vertex count of its mesh, for all dimensions and all
tessellation parameters: a box has 8 vertices and indices < 8, a cylinder
with `n` segments has `2n+2` vertices and indices < `2n+2`, and a sphere
with `L` latitude and `M` longitude bands has `(L+1)*M` vertices and
indices < `(L+1)*M`. -/
theorem mesh_triangle_indices_in_bounds :
    (∀ dx dy dz : ℚ,
      (box_mesh dx dy dz).verts.length = 8 ∧
      ∀ idx ∈ (box_mesh dx dy dz).ti ++ (box_mesh dx dy dz).tj ++
          (box_mesh dx dy dz).tk, idx < 8) ∧
    (∀ (trig : Trig) (r h : ℚ) (n : ℕ),
      (cylinder_mesh trig r h n).verts.length = 2 * n + 2 ∧
      ∀ idx ∈ (cylinder_mesh trig r h n).ti ++ (cylinder_mesh trig r h n).tj ++
          (cylinder_mesh trig r h n).tk, idx < 2 * n + 2) ∧
    (∀ (trig : Trig) (r : ℚ) (L M : ℕ),
      (sphere_mesh trig r L M).verts.length = (L + 1) * M ∧
      ∀ idx ∈ (sphere_mesh trig r L M).ti ++ (sphere_mesh trig r L M).tj ++
          (sphere_mesh trig r L M).tk, idx < (L + 1) * M) := by
  refine ⟨fun dx dy dz => ⟨rfl, ?_⟩, fun trig r h n => ⟨?_, ?_⟩,
    fun trig r L M => ⟨?_, ?_⟩⟩
  · intro idx hidx
    simp only [box_mesh, List.mem_append, List.mem_cons, List.not_mem_nil,
      or_false] at hidx
    omega
  · simp [cylinder_mesh]
    omega
  · intro idx hidx
    simp only [cylinder_mesh, List.mem_append, List.mem_flatMap,
      List.mem_range, List.mem_cons, List.not_mem_nil, or_false] at hidx
    have key : ∀ seg, seg < n → (seg + 1) % n < n := fun seg hs =>
      Nat.mod_lt _ (by omega)
    rcases hidx with (⟨seg, hs, hm⟩ | ⟨seg, hs, hm⟩) | ⟨seg, hs, hm⟩ <;>
      have := key seg hs <;> omega
  · simp [sphere_mesh, Function.comp_def, List.map_const', List.sum_replicate,
      smul_eq_mul]
  · intro idx hidx
    simp only [sphere_mesh, List.mem_append, List.mem_flatMap,
      List.mem_range, List.mem_cons, List.not_mem_nil, or_false] at hidx
    rcases hidx with (⟨lat, hlat, lon, hlon, hm⟩ | ⟨lat, hlat, lon, hlon, hm⟩) |
      ⟨lat, hlat, lon, hlon, hm⟩ <;>
    · have hM : 0 < M := by omega
      have hmod : (lon + 1) % M < M := Nat.mod_lt _ hM
      rcases hm with hm | hm | hm <;> try subst hm
      all_goals
        first
        | exact grid_index_lt L M lat lon (by omega) hlon
        | exact grid_index_lt L M lat ((lon + 1) % M) (by omega) hmod
        | exact grid_index_lt L M (lat + 1) lon (by omega) hlon
        | exact grid_index_lt L M (lat + 1) ((lon + 1) % M) (by omega) hmod

/-- Witness for C3 at the source's default tessellation parameters. -/
theorem mesh_triangle_indices_witness :
    (cylinder_mesh trig0 1 1 24).verts.length = 2 * 24 + 2 ∧ (0 : ℕ) < 2 * 24 + 2 ∧
    (sphere_mesh trig0 1 12 24).verts.length = (12 + 1) * 24 ∧
      (0 : ℕ) < (12 + 1) * 24 := by
  refine ⟨(mesh_triangle_indices_in_bounds.2.1 trig0 1 1 24).1,
    (mesh_triangle_indices_in_bounds.2.1 trig0 1 1 24).2 0 ?_,
    (mesh_triangle_indices_in_bounds.2.2 trig0 1 12 24).1,
    (mesh_triangle_indices_in_bounds.2.2 trig0 1 12 24).2 0 ?_⟩ <;> decide

/-- A trig oracle agreeing with the true trigonometric functions at the
degree inputs 0 and 90: `cos(radians 0) = 1`, `sin(radians 0) = 0`,
`cos(radians 90) = 0`, `sin(radians 90) = 1`. -/
def trigZ90 : Trig :=
  { cosd := fun q => if q = 0 then 1 else 0
    sind := fun q => if q = 90 then 1 else 0
    cosSeg := fun _ _ => 0, sinSeg := fun _ _ => 0
    cosLat := fun _ _ => 0, sinLat := fun _ _ => 0 }

/-- C6: placing with rotation `{0,0,0}` (the skipped branch) returns
exactly the vertices translated by `t`; and under the true trigonometric
values at 0 (`cos 0 = 1`, `sin 0 = 0`) the skipped rotation is equivalent
to applying `rotation_matrix 0 0 0` — the identity matrix — and then
translating.  Triangle connectivity is untouched: `place_vertices` maps
vertices only. -/
theorem place_identity_rotation (trig : Trig) (verts : List V3)
    (px py pz : ℚ) :
    place_vertices trig verts px py pz 0 0 0 =
      verts.map (fun v => ⟨v.x + px, v.y + py, v.z + pz⟩) ∧
    (trig.cosd 0 = 1 → trig.sind 0 = 0 →
      (verts.map (mat3Apply (rotation_matrix trig 0 0 0))).map
          (fun v => (⟨v.x + px, v.y + py, v.z + pz⟩ : V3)) =
        verts.map (fun v => (⟨v.x + px, v.y + py, v.z + pz⟩ : V3))) ∧
    (∀ (materials : List (String × Material)) (vol : Volume) (mesh : Mesh),
      meshFor trig (vol.vtype.getD "") vol.dimensions = some mesh →
      ∀ sf ∈ surfacesForVolume trig materials vol,
        sf.ti = mesh.ti ∧ sf.tj = mesh.tj ∧ sf.tk = mesh.tk) := by
  refine ⟨?_, ?_, ?_⟩
  · simp [place_vertices]
  · intro h1 h2
    rw [List.map_map]
    refine List.map_congr_left fun v _ => ?_
    simp [Function.comp, mat3Apply, rotation_matrix, mat3Mul, h1, h2]
  · intro materials vol mesh hmesh sf hsf
    simp only [surfacesForVolume] at hsf
    split at hsf
    · simp at hsf
    · split at hsf
      · simp at hsf
      · rename_i m heq
        rw [hmesh] at heq
        obtain rfl : mesh = m := by injection heq
        obtain ⟨pl, -, rfl⟩ := List.mem_map.1 hsf
        exact ⟨rfl, rfl, rfl⟩

/-- Witness for C6 on a concrete vertex list and translation. -/
theorem place_identity_rotation_witness :
    place_vertices trigZ90 [⟨1, 2, 3⟩] 4 5 6 0 0 0 = [⟨5, 7, 9⟩] ∧
    ([(⟨1, 2, 3⟩ : V3)].map (mat3Apply (rotation_matrix trigZ90 0 0 0))).map
        (fun v => (⟨v.x + 4, v.y + 5, v.z + 6⟩ : V3)) = [⟨5, 7, 9⟩] := by
  have h := place_identity_rotation trigZ90 [⟨1, 2, 3⟩] 4 5 6
  refine ⟨?_, ?_⟩
  · rw [h.1]; norm_num [V3.mk.injEq]
  · rw [h.2.1 (by simp [trigZ90]) (by simp [trigZ90])]
    norm_num [V3.mk.injEq]

/-- C7: the placement transform rotates every vertex by the matrix
`Rz·Ry·Rx` built from Euler angles in degrees and then adds the
translation; with rotation `{0,0,90}` (under the true trigonometric
values `cos 0 = 1, sin 0 = 0, cos 90 = 0, sin 90 = 1`) the vertex
`(1,0,0)` is mapped to `(0,1,0)`. -/
theorem rotation_z90_maps_x_to_y (trig : Trig)
    (h0c : trig.cosd 0 = 1) (h0s : trig.sind 0 = 0)
    (h90c : trig.cosd 90 = 0) (h90s : trig.sind 90 = 1) :
    place_vertices trig [⟨1, 0, 0⟩] 0 0 0 0 0 90 = [⟨0, 1, 0⟩] ∧
    (∀ (verts : List V3) (px py pz rx ry rz : ℚ),
      rx ≠ 0 ∨ ry ≠ 0 ∨ rz ≠ 0 →
      place_vertices trig verts px py pz rx ry rz =
        (verts.map (mat3Apply (rotation_matrix trig rx ry rz))).map
          (fun v => (⟨v.x + px, v.y + py, v.z + pz⟩ : V3))) := by
  constructor
  · have h90 : (0 : ℚ) ≠ 0 ∨ (0 : ℚ) ≠ 0 ∨ (90 : ℚ) ≠ 0 := by norm_num
    simp [place_vertices, if_pos h90, rotation_matrix, mat3Mul, mat3Apply,
      h0c, h0s, h90c, h90s]
  · intro verts px py pz rx ry rz h
    simp [place_vertices, if_pos h]

/-- Witness for C7 with a concrete trig oracle satisfying the four
trigonometric facts. -/
theorem rotation_z90_witness :
    place_vertices trigZ90 [⟨1, 0, 0⟩] 0 0 0 0 0 90 = [⟨0, 1, 0⟩] :=
  (rotation_z90_maps_x_to_y trigZ90 (by simp [trigZ90]) (by simp [trigZ90])
    (by norm_num [trigZ90]) (by norm_num [trigZ90])).1

/-- Every surface a volume yields carries the colour obtained from the
volume's material lookup (default material `{}`, default colour
`[0.6, 0.6, 0.6, 0.3]`) rendered with alpha override 0.15. -/
lemma surfacesForVolume_color (trig : Trig)
    (materials : List (String × Material)) (vol : Volume) :
    ∀ sf ∈ surfacesForVolume trig materials vol,
      sf.color = rgba_str
        (((materials.lookup (vol.material.getD "")).getD ⟨none⟩).color.getD
          [6 / 10, 6 / 10, 6 / 10, 3 / 10]) (some (3 / 20)) := by
  intro sf hsf
  simp only [surfacesForVolume] at hsf
  split at hsf
  · simp at hsf
  · split at hsf
    · simp at hsf
    · obtain ⟨pl, -, rfl⟩ := List.mem_map.1 hsf
      rfl

/-- A colour list with fewer than three channels always renders as the
fixed gray `rgba(150,150,150,0.25)`, whatever the alpha override. -/
lemma rgba_str_short (c : List ℚ) (h : c.length < 3) (a : Option ℚ) :
    rgba_str c a = ⟨150, 150, 150, 1 / 4⟩ := by
  match c with
  | [] => rfl
  | [_] => rfl
  | [_, _] => rfl
  | _ :: _ :: _ :: _ => exact absurd h (by simp)

/-- The default colour `[0.6, 0.6, 0.6, 0.3]` renders with the 0.15 alpha
override as `rgba(153,153,153,0.15)` — not the fixed gray. -/
lemma rgba_str_default_eval :
    rgba_str [6 / 10, 6 / 10, 6 / 10, 3 / 10] (some (3 / 20)) =
      ⟨153, 153, 153, 3 / 20⟩ := by
  simp [rgba_str, channel255, pyInt]
  norm_num

/-- A box volume whose material name is absent from the materials map. -/
def volAbsentMat : Volume :=
  { vtype := some "box", material := some "steel", placements := some [{}] }

/-- A box volume referring to the material `"glass"`. -/
def volGlass : Volume :=
  { vtype := some "box", material := some "glass", placements := some [{}] }

/-- C5 counterexample: a volume whose material is absent from the
materials mapping is rendered with `rgba(153,153,153,0.15)` (the default
colour `[0.6,0.6,0.6,0.3]` under the 0.15 alpha override), not with the
fixed gray `rgba(150,150,150,0.25)` the claim states. -/
theorem absent_material_color_counterexample :
    (surfacesForVolume trig0 [] volAbsentMat).map Surface.color =
      [⟨153, 153, 153, 3 / 20⟩] ∧
    (⟨153, 153, 153, 3 / 20⟩ : Rgba) ≠ ⟨150, 150, 150, 1 / 4⟩ := by
  constructor
  · simp [surfacesForVolume, volAbsentMat, meshFor, rgba_str, channel255, pyInt]
    norm_num
  · intro h
    have := congrArg Rgba.r h
    norm_num at this

/-- C5 amended: a volume whose material's colour entry is present but
malformed (fewer than 3 channels) renders with the fixed gray
`rgba(150,150,150,0.25)`; a volume whose material is absent from the
mapping, or whose material has no colour entry, renders with the default
colour `[0.6,0.6,0.6,0.3]` under the 0.15 alpha override, i.e.
`rgba(153,153,153,0.15)`. -/
theorem material_color_defaults (trig : Trig)
    (materials : List (String × Material)) (vol : Volume) :
    ((materials.lookup (vol.material.getD "") = none ∨
      ∃ m, materials.lookup (vol.material.getD "") = some m ∧ m.color = none) →
      (surfacesForVolume trig materials vol).map Surface.color =
        List.replicate (surfacesForVolume trig materials vol).length
          ⟨153, 153, 153, 3 / 20⟩) ∧
    (∀ m c, materials.lookup (vol.material.getD "") = some m →
      m.color = some c → c.length < 3 →
      (surfacesForVolume trig materials vol).map Surface.color =
        List.replicate (surfacesForVolume trig materials vol).length
          ⟨150, 150, 150, 1 / 4⟩) := by
  have hc := surfacesForVolume_color trig materials vol
  constructor
  · intro hcase
    rw [show (surfacesForVolume trig materials vol).length =
      ((surfacesForVolume trig materials vol).map Surface.color).length by simp]
    refine List.eq_replicate_of_mem ?_
    intro x hx
    obtain ⟨sf, hsf, rfl⟩ := List.mem_map.1 hx
    rw [hc sf hsf]
    rcases hcase with h | ⟨m, hm, hcol⟩
    · rw [h]
      exact rgba_str_default_eval
    · rw [hm]
      simp only [Option.getD_some, hcol, Option.getD_none]
      exact rgba_str_default_eval
  · intro m c hm hcol hlen
    rw [show (surfacesForVolume trig materials vol).length =
      ((surfacesForVolume trig materials vol).map Surface.color).length by simp]
    refine List.eq_replicate_of_mem ?_
    intro x hx
    obtain ⟨sf, hsf, rfl⟩ := List.mem_map.1 hx
    rw [hc sf hsf, hm]
    simp only [Option.getD_some, hcol]
    exact rgba_str_short c hlen _

/-- Witness for C5 on a material with a malformed two-channel colour. -/
theorem material_color_defaults_witness :
    (surfacesForVolume trig0 [("glass", ⟨some [1, 0]⟩)] volGlass).map
        Surface.color =
      List.replicate
        (surfacesForVolume trig0 [("glass", ⟨some [1, 0]⟩)] volGlass).length
        ⟨150, 150, 150, 1 / 4⟩ :=
  (material_color_defaults trig0 [("glass", ⟨some [1, 0]⟩)] volGlass).2
    ⟨some [1, 0]⟩ [1, 0] (by simp [volGlass]) rfl (by norm_num)

/-- A volume of the unsupported type `"torus"`, with a placement. -/
def torusVol : Volume :=
  { vtype := some "torus", dimensions := { radius := some 1 }
    placements := some [{}] }

/-- A valid box volume with one placement. -/
def boxVol : Volume :=
  { name := some "world", vtype := some "box"
    dimensions := { x := some 2, y := some 2, z := some 2 }
    material := some "air", placements := some [{}] }

/-- A geometry description holding the torus volume and the box volume. -/
def torusBoxGeom : Geom := { volumes := some [torusVol, boxVol] }

/-- C8: a volume whose type is none of `box`, `cylinder`, `sphere`
produces zero surfaces (and, the function being total, never an error);
the builder is a flat map over the volumes, so generation continues with
the remaining volumes; in particular the torus+box description yields
exactly one surface. -/
theorem unsupported_type_inert (trig : Trig)
    (materials : List (String × Material)) (vol : Volume)
    (h1 : vol.vtype.getD "" ≠ "box") (h2 : vol.vtype.getD "" ≠ "cylinder")
    (h3 : vol.vtype.getD "" ≠ "sphere") :
    surfacesForVolume trig materials vol = [] ∧
    (∀ (vols : List Volume) (mats : List (String × Material)),
      add_geometry_traces trig ⟨some vols⟩ mats =
        vols.flatMap (surfacesForVolume trig mats)) ∧
    (add_geometry_traces trig0 torusBoxGeom []).length = 1 := by
  refine ⟨?_, fun vols mats => rfl, ?_⟩
  · simp only [surfacesForVolume]
    split
    · rfl
    · rw [show meshFor trig (vol.vtype.getD "") vol.dimensions = none by
        simp [meshFor, h1, h2, h3]]
  · simp [add_geometry_traces, torusBoxGeom, torusVol, boxVol,
      surfacesForVolume, meshFor]

/-- Witness for C8 at the torus volume. -/
theorem unsupported_type_inert_witness :
    surfacesForVolume trig0 [] torusVol = [] :=
  (unsupported_type_inert trig0 [] torusVol (by simp [torusVol])
    (by simp [torusVol]) (by simp [torusVol])).1

/-- C10: a surface is produced only per entry of a volume's placements
list: a volume with an absent or empty placements list yields zero
surfaces, the surface count never exceeds the placement count, and for a
visible volume of a supported type it equals the placement count. -/
theorem surface_per_placement_entry (trig : Trig)
    (materials : List (String × Material)) (vol : Volume) :
    (vol.placements.getD [] = [] → surfacesForVolume trig materials vol = []) ∧
    (surfacesForVolume trig materials vol).length ≤
      (vol.placements.getD []).length ∧
    (vol.visible.getD true ≠ false →
      ∀ mesh, meshFor trig (vol.vtype.getD "") vol.dimensions = some mesh →
      (surfacesForVolume trig materials vol).length =
        (vol.placements.getD []).length) := by
  refine ⟨?_, ?_, ?_⟩
  · intro hpl
    simp only [surfacesForVolume]
    split
    · rfl
    · split
      · rfl
      · rw [hpl]
        rfl
  · simp only [surfacesForVolume]
    split
    · simp
    · split
      · simp
      · simp
  · intro hvis mesh hmesh
    simp only [surfacesForVolume]
    split
    · rename_i h
      exact absurd h hvis
    · split
      · rename_i hnone
        simp [hmesh] at hnone
      · simp

/-- Witness for C10: a supported volume without a placements key. -/
theorem surface_per_placement_witness :
    surfacesForVolume trig0 [] { vtype := some "box" } = [] :=
  (surface_per_placement_entry trig0 [] { vtype := some "box" }).1 rfl

/-- Along a prefix chain, the head is a prefix of the last element. -/
lemma chain_getLastD (cs : List (List String)) (c : List String)
    (h : List.Chain' (· <+: ·) (c :: cs)) : c <+: cs.getLastD c := by
  induction cs generalizing c with
  | nil => exact ⟨[], List.append_nil c⟩
  | cons d ds ih =>
    rw [List.getLastD_cons]
    exact (List.chain'_cons.1 h).1.trans (ih d (List.chain'_cons.1 h).2)

/-- Running the `/ws/log` loop over a monotone (append-only) sequence of
live snapshots starting at cursor `cur.length`: everything after the part
of the last snapshot already seen is emitted, and the loop continues into
`rest` with the cursor at the last snapshot's length. -/
lemma wsRun_chain_aux :
    ∀ (chain : List (List String)) (cur : List String)
      (rest : List (Option (List String))),
      List.Chain' (· <+: ·) (cur :: chain) →
      wsRun (chain.map some ++ rest) cur.length =
        ((chain.getLastD cur).drop cur.length ++
            (wsRun rest (chain.getLastD cur).length).1,
         (wsRun rest (chain.getLastD cur).length).2.1,
         (wsRun rest (chain.getLastD cur).length).2.2) := by
  intro chain
  induction chain with
  | nil =>
    intro cur rest _
    simp [List.drop_length]
  | cons c cs ih =>
    intro cur rest h
    have h1 : cur <+: c := (List.chain'_cons.1 h).1
    have h2 : List.Chain' (· <+: ·) (c :: cs) := (List.chain'_cons.1 h).2
    have hlen : cur.length ≤ c.length := h1.length_le
    rw [List.map_cons, List.cons_append]
    by_cases hgt : c.length > cur.length
    · have step : wsRun (some c :: (cs.map some ++ rest)) cur.length =
          (c.drop cur.length ++ (wsRun (cs.map some ++ rest) c.length).1,
           (wsRun (cs.map some ++ rest) c.length).2.1,
           (wsRun (cs.map some ++ rest) c.length).2.2) := by
        simp [wsRun, wsStep, hgt]
      rw [step, ih c rest h2, List.getLastD_cons]
      obtain ⟨t, ht⟩ := chain_getLastD cs c h2
      rw [← ht, List.drop_append_of_le_length hlen]
      simp
    · have heq : cur = c :=
        h1.eq_of_length (le_antisymm hlen (not_lt.1 hgt))
      subst heq
      have step : wsRun (some cur :: (cs.map some ++ rest)) cur.length =
          ((wsRun (cs.map some ++ rest) cur.length).1,
           (wsRun (cs.map some ++ rest) cur.length).2.1,
           (wsRun (cs.map some ++ rest) cur.length).2.2) := by
        simp [wsRun, wsStep]
      rw [step, ih cur rest h2, List.getLastD_cons]

/-- C4 amended: a subscriber whose polls observe an append-only chain of
live snapshots ending with the full line list `L` (non-empty), followed by
the cleared session, emits exactly the lines of `L` — in append order,
without duplication — and then one terminal sentinel, and its stream
ends. -/
theorem ws_monotone_subscriber_delivery (chain : List (List String))
    (L : List String) (hchain : List.Chain' (· <+: ·) chain)
    (hlast : chain.getLast? = some L) (hne : L ≠ []) :
    wsRun (chain.map some ++ [none]) 0 = (L ++ ["__DONE__"], L.length, true) := by
  have h0 : List.Chain' (· <+: ·) ([] :: chain) :=
    List.chain'_cons'.2 ⟨fun y _ => ⟨y, rfl⟩, hchain⟩
  have haux := wsRun_chain_aux chain [] [none] h0
  have hLast : chain.getLastD [] = L := by
    rw [List.getLastD_eq_getLast?, hlast]
    rfl
  rw [hLast] at haux
  simp only [List.length_nil, List.drop_zero] at haux
  rw [haux]
  have hpos : 0 < L.length := List.length_pos.2 hne
  simp [wsRun, wsStep, hpos]

/-- Witness for C4's amended statement: subscribers observing the five
appended lines (here across two polls) before the clearing receive all
five in order, one sentinel, and the stream ends. -/
theorem ws_monotone_subscriber_witness :
    wsRun ([["l1"], ["l1", "l2", "l3", "l4", "l5"]].map some ++ [none]) 0 =
      (["l1", "l2", "l3", "l4", "l5"] ++ ["__DONE__"], 5, true) :=
  ws_monotone_subscriber_delivery [["l1"], ["l1", "l2", "l3", "l4", "l5"]]
    ["l1", "l2", "l3", "l4", "l5"]
    (List.chain'_cons.2 ⟨⟨["l2", "l3", "l4", "l5"], rfl⟩,
      List.chain'_singleton _⟩)
    rfl (by simp)

/-- C4 counterexample: a subscriber that observes the cleared session
before having emitted any line receives no terminal sentinel and its
stream does not end (the loop goes on polling); and a subscriber whose
stream did end saw only the lines present at its last live poll — here a
single line, although more had been appended before the clearing. -/
theorem ws_cleared_session_counterexample :
    wsRun [none] 0 = ([], 0, false) ∧
    wsRun [some ["l1"], none] 0 = (["l1", "__DONE__"], 1, true) :=
  ⟨rfl, rfl⟩

end G4Web
